import Mathlib

/-!
Verification of the letsdata-python-examples user data handlers.

The DynamoDB table-item reader (`DynamoDBTableItemReader.parseDynamoDBItem`)
and the DynamoDB streams record reader (`DynamoDBStreamsRecordReader.parseRecord`)
are embedded shallowly: Python dictionaries become insertion-ordered association
lists, Python's dynamic values become the `PyVal` inductive, a raised exception
becomes the `Except.error` branch carrying the fault message, and the
`try/except` boundary of each handler becomes a total function that maps the
error branch to the fallback `ErrorDoc` result.  The random
`str(uuid.uuid4())` generated in the except branch is supplied as an explicit
oracle argument `docIdUUID`.

The Spark reducer's dataframe-combining loop and the Spark mapper's `to_map`
header-array conversion are embedded as well (`reducerCombine`, `to_map`).
-/

/-- A dynamic Python value as the handlers can encounter it: a string, an
integer, `None`, or a string-keyed dictionary (insertion-ordered). -/
inductive PyVal where
  | str : String → PyVal
  | int : Int → PyVal
  | pynone : PyVal
  | dict : List (String × PyVal) → PyVal
deriving Repr

/-- Modelled from the spec: the repository imports `Document`, `SkipDoc` and
`ErrorDoc` from `letsdata_interfaces.documents`, which this repository's
sources reference but whose definitions are not in the example sources.  Per
the spec these are plain data carriers: a Document is
{type, identifier, a tag literal, partition key, metadata mapping, payload
mapping}; a SkipDoc/ErrorDoc is {identifier, a reason code, partition key,
metadata mappings, a context mapping duplicated into both metadata slots,
human-readable reason}.  Fields are stored positionally exactly as the
handlers' constructor calls pass them. -/
inductive DocVariant where
  | document (docType : String) (documentId : PyVal) (docTag : String)
      (partitionKey : PyVal) (documentMetadata : PyVal) (documentPayload : PyVal)
  | errorDoc (documentId : PyVal) (errorCode : String) (partitionKey : PyVal)
      (recordStart recordEnd : PyVal) (documentMetadata1 documentMetadata2 : PyVal)
      (errorMessage : String)
  | skipDoc (documentId : PyVal) (skipCode : String) (partitionKey : PyVal)
      (recordStart recordEnd : PyVal) (documentMetadata1 documentMetadata2 : PyVal)
      (skipMessage : String)
deriving Repr

/-- Modelled from the spec: "every handler call returns a triple
(reserved-field, Document-or-SkipDoc-or-ErrorDoc, status-tag)".  The class
`ParseDocumentResult` is imported from `letsdata_interfaces.readers.model`
and not present in the example sources; it stores its three constructor
arguments positionally. -/
structure ParseDocumentResult where
  reservedField : PyVal
  document : DocVariant
  status : String
deriving Repr

/-- One step of the docId accumulation loop shared by both readers:
`docId = keyValue` when `docId is None`, else `docId += ('|' + keyValue)`.
String concatenation is defined only between strings; any other combination
raises a Python `TypeError`, modelled as `Except.error` with the fault
message. -/
def concatStep : PyVal → PyVal → Except String PyVal
  | .pynone, v => .ok v
  | .str s, .str t => .ok (.str (s ++ "|" ++ t))
  | _, _ => .error "TypeError: can only concatenate str to str"

/-- The `for keyValue in keys.values()` loop body of both readers, with a
raised `TypeError` aborting the loop. -/
def deriveLoop : PyVal → List PyVal → Except String PyVal
  | d, [] => .ok d
  | d, v :: vs =>
    match concatStep d v with
    | .ok d₂ => deriveLoop d₂ vs
    | .error e => .error e

/-- The model of `keys.values()` followed by the docId loop: on a dictionary it folds the
values in insertion order starting from `None`; on `None` (or any non-dict)
Python raises `AttributeError` because the object has no `values` method. -/
def deriveDocId : PyVal → Except String PyVal
  | .dict kvs => deriveLoop .pynone (kvs.map Prod.snd)
  | .pynone => .error "AttributeError: NoneType object has no attribute values"
  | _ => .error "AttributeError: object has no attribute values"

/-- The Python test `item is None or len(item) <= 0`: `True` for `None` and
for an empty dictionary or string, `False` for non-empty ones; `len` raises
`TypeError` on an integer. -/
def pyIsNoneOrEmpty : PyVal → Except String Bool
  | .pynone => .ok true
  | .dict kvs => .ok (kvs.length ≤ 0)
  | .str s => .ok (s.length ≤ 0)
  | .int _ => .error "TypeError: object of type int has no len"

/-- The body of `DynamoDBTableItemReader.parseDynamoDBItem`'s `try` block:
derive the docId from `keys`, then classify `item` — empty gives the
"empty record" `ErrorDoc` with status `"ERROR"`, non-empty gives the echoed
`Document` with status `"SUCCESS"`.  A raised exception is the `error`
branch. -/
def parseDynamoDBItemCore (keys item : PyVal) : Except String ParseDocumentResult :=
  match deriveDocId keys with
  | .error e => .error e
  | .ok docId =>
    match pyIsNoneOrEmpty item with
    | .error e => .error e
    | .ok true =>
      .ok ⟨.pynone,
           .errorDoc docId "DDB_ERROR" docId (.dict []) (.dict [])
             (.dict [("keys", keys)]) (.dict [("keys", keys)]) "empty record",
           "ERROR"⟩
    | .ok false =>
      .ok ⟨.pynone,
           .document "Document" docId "DOCUMENT" docId (.dict []) item,
           "SUCCESS"⟩

/-- The full `DynamoDBTableItemReader.parseDynamoDBItem`: the `try/except` boundary.
`docIdUUID` is the oracle value of `str(uuid.uuid4())` generated in the
except branch. -/
def parseDynamoDBItem (_tableName : String) (_segmentNumber : Int)
    (keys item : PyVal) (docIdUUID : String) : ParseDocumentResult :=
  match parseDynamoDBItemCore keys item with
  | .ok r => r
  | .error ex =>
    ⟨.pynone,
     .errorDoc (.str docIdUUID) "DDB_ERROR" (.str docIdUUID) (.dict []) (.dict [])
       (.dict [("keys", keys)]) (.dict [("keys", keys)]) ("Exception - " ++ ex),
     "ERROR"⟩

/-- The body of `DynamoDBStreamsRecordReader.parseRecord`'s `try` block:
derive the docId from `keys`, then classify `newImage` — empty gives the
"delete record" `SkipDoc` with status `"SKIP"`, non-empty gives the echoed
`Document` with status `"SUCCESS"`. -/
def parseRecordCore (sequenceNumber : String) (keys newImage : PyVal) :
    Except String ParseDocumentResult :=
  match deriveDocId keys with
  | .error e => .error e
  | .ok docId =>
    match pyIsNoneOrEmpty newImage with
    | .error e => .error e
    | .ok true =>
      .ok ⟨.pynone,
           .skipDoc docId "DYNAMODBSTREAMS_SKIP" docId (.dict []) (.dict [])
             (.dict [("sequenceNumber", .str sequenceNumber)])
             (.dict [("sequenceNumber", .str sequenceNumber)]) "delete record",
           "SKIP"⟩
    | .ok false =>
      .ok ⟨.pynone,
           .document "Document" docId "DOCUMENT" docId (.dict []) newImage,
           "SUCCESS"⟩

/-- The full `DynamoDBStreamsRecordReader.parseRecord`: the `try/except` boundary.
All parameters of the Python signature are kept; only `sequenceNumber`,
`keys` and `newImage` influence the result.  `docIdUUID` is the oracle
value of `str(uuid.uuid4())` generated in the except branch. -/
def parseRecord (_streamArn _shardId _eventId _eventName
    _identityPrincipalId _identityType : String) (sequenceNumber : String)
    (_sizeBytes : Int) (_streamViewType : String)
    (_approximateCreationDateTime : Int)
    (keys _oldImage newImage : PyVal) (docIdUUID : String) : ParseDocumentResult :=
  match parseRecordCore sequenceNumber keys newImage with
  | .ok r => r
  | .error ex =>
    ⟨.pynone,
     .errorDoc (.str docIdUUID) "KINESIS_ERROR" (.str docIdUUID) (.dict []) (.dict [])
       (.dict [("sequenceNumber", .str sequenceNumber)])
       (.dict [("sequenceNumber", .str sequenceNumber)]) ("Exception - " ++ ex),
     "ERROR"⟩

/-- The values of a `keys` dictionary (empty for a non-dictionary), used to
state that the fallback identifier is distinct from every Key Mapping
value. -/
def dictValues : PyVal → List PyVal
  | .dict kvs => kvs.map Prod.snd
  | _ => []

/-- The identifier stored in whichever document variant a result carries. -/
def DocVariant.docIdOf : DocVariant → PyVal
  | .document _ i _ _ _ _ => i
  | .errorDoc i _ _ _ _ _ _ _ => i
  | .skipDoc i _ _ _ _ _ _ _ => i

/-- The spec's Derived Identifier: the Key Mapping's values joined with the
literal separator `|` in iteration order. -/
def pipeJoin : List String → String
  | [] => ""
  | [v] => v
  | v :: w :: vs => v ++ "|" ++ pipeJoin (w :: vs)

/-- The Derived Identifier of a string-valued Key Mapping: undefined
(`None`) for an empty mapping, otherwise the `|`-joined values. -/
def derivedId (kvs : List (String × String)) : PyVal :=
  match kvs with
  | [] => .pynone
  | _ => .str (pipeJoin (kvs.map Prod.snd))

/-- A string-valued Key Mapping as the `PyVal` dictionary passed to the
handlers. -/
def strDict (kvs : List (String × String)) : PyVal :=
  .dict (kvs.map fun kv => (kv.1, .str kv.2))

example : deriveDocId (strDict [("pk", "A"), ("sk", "B")]) = .ok (.str "A|B") := by
  simp [strDict, deriveDocId, deriveLoop, concatStep]

example : deriveDocId .pynone =
    .error "AttributeError: NoneType object has no attribute values" := rfl

/-- The result contract of §6 of the spec: the status tag is one of
`"SUCCESS"`, `"SKIP"`, `"ERROR"`, and it matches the document variant. -/
def statusMatchesVariant (r : ParseDocumentResult) : Prop :=
  (r.status = "SUCCESS" ∨ r.status = "SKIP" ∨ r.status = "ERROR") ∧
  match r.document with
  | .document .. => r.status = "SUCCESS"
  | .skipDoc .. => r.status = "SKIP"
  | .errorDoc .. => r.status = "ERROR"

/-- The body of `SparkReducerInterface.reducer`'s dataframe-combining loop over
`readUris`: `dataframe` starts as `None`; on the first uri the read
dataframe is assigned (`dataframe == None` is true only for `None`); on
every later uri the loop evaluates `dataframe.union(currDataFrame)` and
discards its value, leaving `dataframe` unchanged.  The external engine's
`readSparkDataframe` and `union` are abstract parameters. -/
def reducerStep {α : Type} (union : α → α → α) (read : String → α)
    (dataframe : Option α) (readUri : String) : Option α :=
  let currDataFrame := read readUri
  match dataframe with
  | none => some currDataFrame
  | some df =>
    let _unionResultDiscarded := union df currDataFrame
    some df

/-- The `for readUri in readUris` loop of `SparkReducerInterface.reducer`,
folding `reducerStep` from the initial `dataframe = None`. -/
def reducerCombine {α : Type} (union : α → α → α) (read : String → α)
    (readUris : List String) : Option α :=
  readUris.foldl (reducerStep union read) none

/-- The tail of `SparkReducerInterface.reducer` after the loop: the grouped aggregation
(groupBy language / percentile / count / orderBy, an abstract engine
operation `agg`) applied to the combined dataframe; its result is what
`writeSparkDataframe` writes. -/
def reducerOutput {α : Type} (union : α → α → α) (read : String → α)
    (agg : α → α) (readUris : List String) : Option α :=
  (reducerCombine union read readUris).map agg

/-- Python dictionary assignment `d[k] = v` on an insertion-ordered
association list with unique keys: an existing key keeps its position and
gets the new value; a new key is appended at the end. -/
def dictInsert : List (String × String) → String → String → List (String × String)
  | [], k, v => [(k, v)]
  | p :: rest, k, v => if p.1 = k then (k, v) :: rest else p :: dictInsert rest k v

/-- The indexed loop of `to_map` in `SparkMapperInterface`:
`for i in range(1, len(arr), 2): key = arr[i]; value = arr[i+1];
map_value[key] = value`.  When `arr[i+1]` is out of range the Python
`IndexError` is caught by the surrounding `except` and the map built so
far is returned. -/
def to_map_go (arr : List String) (i : Nat) (acc : List (String × String)) :
    List (String × String) :=
  if h : i < arr.length then
    if h2 : i + 1 < arr.length then
      to_map_go arr (i + 2) (dictInsert acc arr[i] arr[i + 1])
    else acc
  else acc
termination_by arr.length - i

/-- The function `to_map` of `SparkMapperInterface`: converts the header token array
`[warcFormatKey, k1, v1, k2, v2, ...]` to the mapping `{k1: v1, k2: v2, ...}`,
starting at index 1. -/
def to_map (arr : List String) : List (String × String) :=
  to_map_go arr 1 []

/-- The successive (key, value) pairs of a token list, dropping an unpaired
trailing key. -/
def specPairs : List String → List (String × String)
  | k :: v :: rest => (k, v) :: specPairs rest
  | _ => []

/-- The mapping `to_map` is claimed to compute: element 0 ignored, the pairs
(arr[1], arr[2]), (arr[3], arr[4]), ... inserted in order with later
duplicates overwriting earlier ones, an unpaired trailing key dropped. -/
def to_map_spec (arr : List String) : List (String × String) :=
  (specPairs arr.tail).foldl (fun d p => dictInsert d p.1 p.2) []

/-- Helper: `pairsFold` consumes a token list two at a time, inserting each pair —
the list-structured counterpart of the indexed `to_map_go` loop. -/
def pairsFold : List String → List (String × String) → List (String × String)
  | k :: v :: rest, acc => pairsFold rest (dictInsert acc k v)
  | _, acc => acc

theorem pairsFold_eq_foldl : ∀ (l : List String) (acc : List (String × String)),
    pairsFold l acc = (specPairs l).foldl (fun d p => dictInsert d p.1 p.2) acc
  | [], _ => rfl
  | [_], _ => rfl
  | _ :: _ :: rest, acc => by
    simp only [pairsFold, specPairs, List.foldl]
    exact pairsFold_eq_foldl rest _

theorem to_map_go_eq_pairsFold (arr : List String) (i : Nat)
    (acc : List (String × String)) : to_map_go arr i acc = pairsFold (arr.drop i) acc := by
  unfold to_map_go
  split
  · next h =>
    split
    · next h2 =>
      rw [to_map_go_eq_pairsFold arr (i + 2) (dictInsert acc arr[i] arr[i + 1])]
      rw [List.drop_eq_getElem_cons h, List.drop_eq_getElem_cons h2]
      rfl
    · next h2 =>
      rw [List.drop_eq_getElem_cons h,
        List.drop_eq_nil_of_le (Nat.le_of_not_lt h2)]
      rfl
  · next h =>
    rw [List.drop_eq_nil_of_le (Nat.le_of_not_lt h)]
    rfl
termination_by arr.length - i

theorem lookup_dictInsert (k v : String) :
    ∀ d : List (String × String), (dictInsert d k v).lookup k = some v := by
  intro d
  induction d with
  | nil => simp [dictInsert, List.lookup]
  | cons p rest ih =>
    by_cases hp : p.1 = k
    · simp [dictInsert, hp, List.lookup]
    · simp only [dictInsert, hp, if_false]
      rw [List.lookup]
      have : (k == p.1) = false := by
        simp [beq_iff_eq]
        exact fun hk => hp hk.symm
      rw [this]
      exact ih

theorem deriveLoop_str (vs : List String) : ∀ s : String,
    deriveLoop (.str s) (vs.map PyVal.str)
      = .ok (.str (vs.foldl (fun a b => a ++ "|" ++ b) s)) := by
  induction vs with
  | nil => intro s; rfl
  | cons w ws ih =>
    intro s
    simp only [List.map, deriveLoop, concatStep, List.foldl]
    exact ih (s ++ "|" ++ w)

theorem foldl_pipeJoin (vs : List String) : ∀ s : String,
    vs.foldl (fun a b => a ++ "|" ++ b) s = pipeJoin (s :: vs) := by
  induction vs with
  | nil => intro s; rfl
  | cons w ws ih =>
    intro s
    simp only [List.foldl]
    rw [ih (s ++ "|" ++ w)]
    cases ws with
    | nil => rfl
    | cons x r => simp [pipeJoin, String.append_assoc]

/-- The docId loop of both readers computes the spec's Derived Identifier on
any string-valued Key Mapping. -/
theorem deriveDocId_strDict (kvs : List (String × String)) :
    deriveDocId (strDict kvs) = .ok (derivedId kvs) := by
  cases kvs with
  | nil => rfl
  | cons kv rest =>
    have h1 : deriveDocId (strDict (kv :: rest))
        = deriveLoop (.str kv.2) ((rest.map Prod.snd).map PyVal.str) := by
      simp only [strDict, deriveDocId, List.map_cons, List.map_map, deriveLoop,
        concatStep]
      rfl
    rw [h1, deriveLoop_str, foldl_pipeJoin]
    rfl

theorem parseDynamoDBItemCore_matches (keys item : PyVal) (r : ParseDocumentResult) :
    parseDynamoDBItemCore keys item = .ok r → statusMatchesVariant r := by
  unfold parseDynamoDBItemCore
  cases deriveDocId keys with
  | error e => intro h; cases h
  | ok docId =>
    cases pyIsNoneOrEmpty item with
    | error e => intro h; cases h
    | ok b =>
      cases b with
      | true =>
        intro h
        cases h
        simp [statusMatchesVariant]
      | false =>
        intro h
        cases h
        simp [statusMatchesVariant]

theorem parseRecordCore_matches (seq : String) (keys newImage : PyVal)
    (r : ParseDocumentResult) :
    parseRecordCore seq keys newImage = .ok r → statusMatchesVariant r := by
  unfold parseRecordCore
  cases deriveDocId keys with
  | error e => intro h; cases h
  | ok docId =>
    cases pyIsNoneOrEmpty newImage with
    | error e => intro h; cases h
    | ok b =>
      cases b with
      | true =>
        intro h
        cases h
        simp [statusMatchesVariant]
      | false =>
        intro h
        cases h
        simp [statusMatchesVariant]

theorem foldl_reducerStep_some {α : Type} (union : α → α → α) (read : String → α)
    (rest : List String) : ∀ df : α,
    rest.foldl (reducerStep union read) (some df) = some df := by
  induction rest with
  | nil => intro df; rfl
  | cons r rs ih =>
    intro df
    simp only [List.foldl]
    have hstep : reducerStep union read (some df) r = some df := rfl
    rw [hstep]
    exact ih df

/-- C2: for every non-empty string-valued Key Mapping, the docId computed by
the loop shared by both handlers equals the mapping's values joined with the
literal separator `|` in iteration order, order preserved; for an empty Key
Mapping the docId remains `None`. -/
theorem claim2_derived_identifier (k v : String) (rest : List (String × String)) :
    deriveDocId (strDict ((k, v) :: rest))
      = .ok (.str (pipeJoin (v :: rest.map Prod.snd)))
    ∧ deriveDocId (strDict []) = .ok .pynone := by
  constructor
  · rw [deriveDocId_strDict]
    rfl
  · rfl

/-- C3: `parseDynamoDBItem` on a non-empty item and a string-valued keys
mapping returns status `"SUCCESS"` with a Document whose identifier and
partition key are the Derived Identifier, tag `"DOCUMENT"`, empty metadata,
and the input item as payload, unchanged. -/
theorem claim3_table_item_success (tableName : String) (segmentNumber : Int)
    (kvs : List (String × String)) (a : String × PyVal)
    (l : List (String × PyVal)) (u : String) :
    parseDynamoDBItem tableName segmentNumber (strDict kvs) (.dict (a :: l)) u
      = ⟨.pynone,
         .document "Document" (derivedId kvs) "DOCUMENT" (derivedId kvs)
           (.dict []) (.dict (a :: l)),
         "SUCCESS"⟩ := by
  unfold parseDynamoDBItem parseDynamoDBItemCore
  rw [deriveDocId_strDict]
  simp [pyIsNoneOrEmpty]

/-- C4: `parseDynamoDBItem` on an absent (`None`) or empty item returns
status `"ERROR"` with an ErrorDoc whose identifier is the Derived Identifier
(not a random fallback), reason code `"DDB_ERROR"`, reason text
`"empty record"`, and `{"keys": keys}` in both metadata slots. -/
theorem claim4_empty_item_error (tableName : String) (segmentNumber : Int)
    (kvs : List (String × String)) (u : String) :
    parseDynamoDBItem tableName segmentNumber (strDict kvs) .pynone u
      = ⟨.pynone,
         .errorDoc (derivedId kvs) "DDB_ERROR" (derivedId kvs) (.dict []) (.dict [])
           (.dict [("keys", strDict kvs)]) (.dict [("keys", strDict kvs)])
           "empty record",
         "ERROR"⟩
    ∧ parseDynamoDBItem tableName segmentNumber (strDict kvs) (.dict []) u
      = ⟨.pynone,
         .errorDoc (derivedId kvs) "DDB_ERROR" (derivedId kvs) (.dict []) (.dict [])
           (.dict [("keys", strDict kvs)]) (.dict [("keys", strDict kvs)])
           "empty record",
         "ERROR"⟩ := by
  constructor
  · unfold parseDynamoDBItem parseDynamoDBItemCore
    rw [deriveDocId_strDict]
    simp [pyIsNoneOrEmpty]
  · unfold parseDynamoDBItem parseDynamoDBItemCore
    rw [deriveDocId_strDict]
    simp [pyIsNoneOrEmpty]

/-- C5: `parseRecord` on an absent (`None`) or empty newImage returns status
`"SKIP"` with a SkipDoc whose identifier is the Derived Identifier, reason
code `"DYNAMODBSTREAMS_SKIP"`, reason text `"delete record"`, and
`{"sequenceNumber": sequenceNumber}` in both metadata slots. -/
theorem claim5_delete_record_skip (streamArn shardId eventId eventName
    identityPrincipalId identityType sequenceNumber : String) (sizeBytes : Int)
    (streamViewType : String) (approximateCreationDateTime : Int)
    (kvs : List (String × String)) (oldImage : PyVal) (u : String) :
    parseRecord streamArn shardId eventId eventName identityPrincipalId
      identityType sequenceNumber sizeBytes streamViewType
      approximateCreationDateTime (strDict kvs) oldImage .pynone u
      = ⟨.pynone,
         .skipDoc (derivedId kvs) "DYNAMODBSTREAMS_SKIP" (derivedId kvs)
           (.dict []) (.dict [])
           (.dict [("sequenceNumber", .str sequenceNumber)])
           (.dict [("sequenceNumber", .str sequenceNumber)]) "delete record",
         "SKIP"⟩
    ∧ parseRecord streamArn shardId eventId eventName identityPrincipalId
      identityType sequenceNumber sizeBytes streamViewType
      approximateCreationDateTime (strDict kvs) oldImage (.dict []) u
      = ⟨.pynone,
         .skipDoc (derivedId kvs) "DYNAMODBSTREAMS_SKIP" (derivedId kvs)
           (.dict []) (.dict [])
           (.dict [("sequenceNumber", .str sequenceNumber)])
           (.dict [("sequenceNumber", .str sequenceNumber)]) "delete record",
         "SKIP"⟩ := by
  constructor
  · unfold parseRecord parseRecordCore
    rw [deriveDocId_strDict]
    simp [pyIsNoneOrEmpty]
  · unfold parseRecord parseRecordCore
    rw [deriveDocId_strDict]
    simp [pyIsNoneOrEmpty]

/-- C6: `parseRecord` on a non-empty newImage and string-valued keys returns
status `"SUCCESS"` with a Document whose identifier and partition key are
the Derived Identifier, tag `"DOCUMENT"`, and payload exactly the
newImage. -/
theorem claim6_stream_success (streamArn shardId eventId eventName
    identityPrincipalId identityType sequenceNumber : String) (sizeBytes : Int)
    (streamViewType : String) (approximateCreationDateTime : Int)
    (kvs : List (String × String)) (oldImage : PyVal) (a : String × PyVal)
    (l : List (String × PyVal)) (u : String) :
    parseRecord streamArn shardId eventId eventName identityPrincipalId
      identityType sequenceNumber sizeBytes streamViewType
      approximateCreationDateTime (strDict kvs) oldImage (.dict (a :: l)) u
      = ⟨.pynone,
         .document "Document" (derivedId kvs) "DOCUMENT" (derivedId kvs)
           (.dict []) (.dict (a :: l)),
         "SUCCESS"⟩ := by
  unfold parseRecord parseRecordCore
  rw [deriveDocId_strDict]
  simp [pyIsNoneOrEmpty]

/-- C7: two `parseRecord` calls identical except for `oldImage` return the
same result: `oldImage` never affects the outcome. -/
theorem claim7_oldImage_never_affects_result (streamArn shardId eventId
    eventName identityPrincipalId identityType sequenceNumber : String)
    (sizeBytes : Int) (streamViewType : String)
    (approximateCreationDateTime : Int) (keys oldImage₁ oldImage₂ newImage : PyVal)
    (u : String) :
    parseRecord streamArn shardId eventId eventName identityPrincipalId
      identityType sequenceNumber sizeBytes streamViewType
      approximateCreationDateTime keys oldImage₁ newImage u
    = parseRecord streamArn shardId eventId eventName identityPrincipalId
      identityType sequenceNumber sizeBytes streamViewType
      approximateCreationDateTime keys oldImage₂ newImage u := rfl

/-- C8: every value either handler returns is a triple whose status tag is
one of `"SUCCESS"`, `"SKIP"`, `"ERROR"` and matches the document variant:
`"SUCCESS"` with a Document, `"SKIP"` with a SkipDoc, `"ERROR"` with an
ErrorDoc, for every input. -/
theorem claim8_result_contract (tableName : String) (segmentNumber : Int)
    (keys item : PyVal) (u : String) (streamArn shardId eventId eventName
    identityPrincipalId identityType sequenceNumber : String) (sizeBytes : Int)
    (streamViewType : String) (approximateCreationDateTime : Int)
    (keys₂ oldImage newImage : PyVal) (u₂ : String) :
    statusMatchesVariant (parseDynamoDBItem tableName segmentNumber keys item u)
    ∧ statusMatchesVariant (parseRecord streamArn shardId eventId eventName
        identityPrincipalId identityType sequenceNumber sizeBytes streamViewType
        approximateCreationDateTime keys₂ oldImage newImage u₂) := by
  constructor
  · cases h : parseDynamoDBItemCore keys item with
    | ok r =>
      have hr := parseDynamoDBItemCore_matches keys item r h
      simpa [parseDynamoDBItem, h] using hr
    | error e => simp [parseDynamoDBItem, h, statusMatchesVariant]
  · cases h : parseRecordCore sequenceNumber keys₂ newImage with
    | ok r =>
      have hr := parseRecordCore_matches sequenceNumber keys₂ newImage r h
      simpa [parseRecord, h] using hr
    | error e => simp [parseRecord, h, statusMatchesVariant]

/-- C1: whenever a fault is raised inside either handler's try block (during
identifier derivation or classification), the handler catches it and returns
an `"ERROR"` result whose reason text is `"Exception - <fault message>"`,
reason code `"DDB_ERROR"` for the table-item handler and `"KINESIS_ERROR"`
for the stream handler, and whose identifier is the freshly generated
fallback uuid, distinct from every Key Mapping value; the handlers are total,
so the fault never propagates to the caller. -/
theorem claim1_fault_containment (tableName : String) (segmentNumber : Int)
    (keys item : PyVal) (u msg : String)
    (hddb : parseDynamoDBItemCore keys item = .error msg)
    (hfreshD : PyVal.str u ∉ dictValues keys)
    (streamArn shardId eventId eventName identityPrincipalId identityType
      sequenceNumber : String) (sizeBytes : Int) (streamViewType : String)
    (approximateCreationDateTime : Int) (keys₂ oldImage newImage : PyVal)
    (u₂ msg₂ : String)
    (hstream : parseRecordCore sequenceNumber keys₂ newImage = .error msg₂)
    (hfreshS : PyVal.str u₂ ∉ dictValues keys₂) :
    (parseDynamoDBItem tableName segmentNumber keys item u
      = ⟨.pynone,
         .errorDoc (.str u) "DDB_ERROR" (.str u) (.dict []) (.dict [])
           (.dict [("keys", keys)]) (.dict [("keys", keys)])
           ("Exception - " ++ msg),
         "ERROR"⟩
      ∧ ∀ v ∈ dictValues keys,
          (parseDynamoDBItem tableName segmentNumber keys item u).document.docIdOf ≠ v)
    ∧ (parseRecord streamArn shardId eventId eventName identityPrincipalId
        identityType sequenceNumber sizeBytes streamViewType
        approximateCreationDateTime keys₂ oldImage newImage u₂
      = ⟨.pynone,
         .errorDoc (.str u₂) "KINESIS_ERROR" (.str u₂) (.dict []) (.dict [])
           (.dict [("sequenceNumber", .str sequenceNumber)])
           (.dict [("sequenceNumber", .str sequenceNumber)])
           ("Exception - " ++ msg₂),
         "ERROR"⟩
      ∧ ∀ v ∈ dictValues keys₂,
          (parseRecord streamArn shardId eventId eventName identityPrincipalId
            identityType sequenceNumber sizeBytes streamViewType
            approximateCreationDateTime keys₂ oldImage newImage u₂).document.docIdOf
          ≠ v) := by
  have h1 : parseDynamoDBItem tableName segmentNumber keys item u
      = ⟨.pynone,
         .errorDoc (.str u) "DDB_ERROR" (.str u) (.dict []) (.dict [])
           (.dict [("keys", keys)]) (.dict [("keys", keys)])
           ("Exception - " ++ msg),
         "ERROR"⟩ := by
    simp [parseDynamoDBItem, hddb]
  have h2 : parseRecord streamArn shardId eventId eventName identityPrincipalId
      identityType sequenceNumber sizeBytes streamViewType
      approximateCreationDateTime keys₂ oldImage newImage u₂
      = ⟨.pynone,
         .errorDoc (.str u₂) "KINESIS_ERROR" (.str u₂) (.dict []) (.dict [])
           (.dict [("sequenceNumber", .str sequenceNumber)])
           (.dict [("sequenceNumber", .str sequenceNumber)])
           ("Exception - " ++ msg₂),
         "ERROR"⟩ := by
    simp [parseRecord, hstream]
  refine ⟨⟨h1, ?_⟩, ⟨h2, ?_⟩⟩
  · intro v hv
    rw [h1]
    exact fun hc => hfreshD (by rw [show PyVal.str u = v from hc]; exact hv)
  · intro v hv
    rw [h2]
    exact fun hc => hfreshS (by rw [show PyVal.str u₂ = v from hc]; exact hv)

/-- Witness for C1: a keys dictionary with integer values makes the docId
concatenation raise, and a `None` keys makes `.values()` raise; both
handlers return the contained `"ERROR"` result built from the fallback
identifier. -/
theorem claim1_fault_containment_witness :
    (parseDynamoDBItem "tbl" 0 (.dict [("pk", .int 1), ("sk", .int 2)])
        (.dict [("x", .str "1")]) "fresh-uuid-1"
      = ⟨.pynone,
         .errorDoc (.str "fresh-uuid-1") "DDB_ERROR" (.str "fresh-uuid-1")
           (.dict []) (.dict [])
           (.dict [("keys", .dict [("pk", .int 1), ("sk", .int 2)])])
           (.dict [("keys", .dict [("pk", .int 1), ("sk", .int 2)])])
           ("Exception - " ++ "TypeError: can only concatenate str to str"),
         "ERROR"⟩
      ∧ ∀ v ∈ dictValues (.dict [("pk", .int 1), ("sk", .int 2)]),
          (parseDynamoDBItem "tbl" 0 (.dict [("pk", .int 1), ("sk", .int 2)])
            (.dict [("x", .str "1")]) "fresh-uuid-1").document.docIdOf ≠ v)
    ∧ (parseRecord "arn" "shard" "evt" "INSERT" "principal" "type" "seq-1" 0
        "NEW_IMAGE" 0 .pynone .pynone (.dict [("y", .str "2")]) "fresh-uuid-2"
      = ⟨.pynone,
         .errorDoc (.str "fresh-uuid-2") "KINESIS_ERROR" (.str "fresh-uuid-2")
           (.dict []) (.dict [])
           (.dict [("sequenceNumber", .str "seq-1")])
           (.dict [("sequenceNumber", .str "seq-1")])
           ("Exception - " ++ "AttributeError: NoneType object has no attribute values"),
         "ERROR"⟩
      ∧ ∀ v ∈ dictValues PyVal.pynone,
          (parseRecord "arn" "shard" "evt" "INSERT" "principal" "type" "seq-1" 0
            "NEW_IMAGE" 0 .pynone .pynone (.dict [("y", .str "2")])
            "fresh-uuid-2").document.docIdOf ≠ v) :=
  claim1_fault_containment "tbl" 0 (.dict [("pk", .int 1), ("sk", .int 2)])
    (.dict [("x", .str "1")]) "fresh-uuid-1"
    "TypeError: can only concatenate str to str" rfl
    (by simp [dictValues])
    "arn" "shard" "evt" "INSERT" "principal" "type" "seq-1" 0 "NEW_IMAGE" 0
    .pynone .pynone (.dict [("y", .str "2")]) "fresh-uuid-2"
    "AttributeError: NoneType object has no attribute values" rfl
    (by simp [dictValues])

/-- C9: in `SparkReducerInterface.reducer`, the `dataframe.union(currDataFrame)`
result is discarded, so for every readUris list with more than one element
the combined dataframe — and hence the aggregated, written output — comes
from the first readUri's dataframe alone, whatever `union` would compute. -/
theorem claim9_reducer_ignores_union (α : Type) (union : α → α → α)
    (read : String → α) (agg : α → α) (firstUri : String) (rest : List String) :
    reducerCombine union read (firstUri :: rest) = some (read firstUri)
    ∧ reducerOutput union read agg (firstUri :: rest) = some (agg (read firstUri)) := by
  have hc : reducerCombine union read (firstUri :: rest) = some (read firstUri) := by
    unfold reducerCombine
    simp only [List.foldl]
    have hstep : reducerStep union read none firstUri = some (read firstUri) := rfl
    rw [hstep]
    exact foldl_reducerStep_some union read rest (read firstUri)
  exact ⟨hc, by unfold reducerOutput; rw [hc]; rfl⟩

/-- C10: `to_map` in `SparkMapperInterface` is total (the out-of-range access
on an unpaired trailing key is caught, returning the partial map), ignores
element 0, and builds the mapping from the pairs (arr[1], arr[2]),
(arr[3], arr[4]), ... in order; inserting an existing key overwrites its
earlier value. -/
theorem claim10_to_map_pairs (arr : List String) (d : List (String × String))
    (k v : String) :
    to_map arr = to_map_spec arr ∧ (dictInsert d k v).lookup k = some v := by
  constructor
  · unfold to_map to_map_spec
    rw [to_map_go_eq_pairsFold, pairsFold_eq_foldl, List.drop_one]
  · exact lookup_dictInsert k v d
